import Mathlib

/-
Verification of the Facebird API error-classifier layer and the post
routes that use it.  The definitions below are a shallow embedding of
  - lib/custom_errors.js  (the error classes and guard functions),
  - app/models/user.js    (the toObject transform of the user schema),
  - app/routes/post_routes.js (PATCH and DELETE pipelines on /posts/:id).
JavaScript values relevant to the guards are embedded as JsValue; plain
JavaScript objects that the routes manipulate field-by-field are embedded
as association lists with unique keys.  Thrown errors become the error
branch of Except.
-/

namespace Facebird

/-- A JavaScript value, restricted to the shapes the guarded code actually
receives: null, undefined, booleans, (integer) numbers, NaN, strings and
plain objects whose own enumerable fields are string-valued. -/
inductive JsValue where
  | null
  | undefined
  | boolean (b : Bool)
  | number (n : Int)
  | nan
  | str (s : String)
  | obj (fields : List (String × String))
deriving DecidableEq, Repr

/-- JavaScript ToBoolean: the falsy values are null, undefined, false,
0, NaN and the empty string; every other value, in particular every
object, is truthy.  This is the semantics of the negation test in
handle404. -/
def truthy : JsValue → Bool
  | JsValue.null => false
  | JsValue.undefined => false
  | JsValue.boolean b => b
  | JsValue.number n => n != 0
  | JsValue.nan => false
  | JsValue.str s => s != ""
  | JsValue.obj _ => true

/-- An error object as built by the custom error classes: each class
extends Error and sets a fixed name and message in its constructor. -/
structure JsError where
  name : String
  message : String
deriving DecidableEq, Repr

/-- The OwnershipError class of lib/custom_errors.js: its constructor
always sets this fixed name and message. -/
def OwnershipError : JsError :=
  { name := "OwnershipError"
    message := "The provided token does not match the owner of this document" }

/-- The UserValidationError class of lib/custom_errors.js. -/
def UserValidationError : JsError :=
  { name := "UserValidationError"
    message := "The provided token does not match the current user ID" }

/-- The DocumentNotFoundError class of lib/custom_errors.js. -/
def DocumentNotFoundError : JsError :=
  { name := "DocumentNotFoundError"
    message := "The provided ID doesn\x27t match any documents" }

/-- The BadParamsError class of lib/custom_errors.js. -/
def BadParamsError : JsError :=
  { name := "BadParamsError"
    message := "A required parameter was omitted or invalid" }

/-- Modelled from the spec: the identifier type (Mongo ObjectId) and its
library-provided deep-equals method are external to the repository.  Per
the spec, equality is identifier-level, not reference equality: an
identifier is some in-memory representation (the repr component
distinguishes representations) of a logical identifier value (the value
component), and two identifiers are equal exactly when their logical
values agree. -/
structure Id where
  value : String
  repr : Nat
deriving DecidableEq, Repr

/-- The deep-equals method on identifiers: compares logical values,
ignoring the in-memory representation. -/
def Id.equals (a b : Id) : Bool :=
  a.value == b.value

/-- The authenticated user record attached to a request by requireToken;
the guards read only its unique identifier. -/
structure UserDoc where
  _id : Id
deriving DecidableEq, Repr

/-- The request object handed to the guards; requireToken has set its
user field. -/
structure Request where
  user : UserDoc
deriving DecidableEq, Repr

/-- A loaded resource as seen by the guards: it has its own unique
identifier and an owner identifier. -/
structure Resource where
  _id : Id
  owner : Id
deriving DecidableEq, Repr

/-- requireOwnership from lib/custom_errors.js: if the requesting user
identifier does not deep-equal the owner of the resource, throw an
OwnershipError; otherwise return with no effect. -/
def requireOwnership (requestObject : Request) (resource : Resource) :
    Except JsError Unit :=
  if !(Id.equals requestObject.user._id resource.owner) then
    Except.error OwnershipError
  else
    Except.ok ()

/-- handle404 from lib/custom_errors.js: if the record is falsy, throw a
DocumentNotFoundError, else return the record itself. -/
def handle404 (record : JsValue) : Except JsError JsValue :=
  if !(truthy record) then
    Except.error DocumentNotFoundError
  else
    Except.ok record

/-- validateUser from lib/custom_errors.js: if the requesting user
identifier does not deep-equal the resource own identifier, throw a
UserValidationError; otherwise return with no effect. -/
def validateUser (requestObject : Request) (resource : Resource) :
    Except JsError Unit :=
  if !(Id.equals requestObject.user._id resource._id) then
    Except.error UserValidationError
  else
    Except.ok ()

/-- State-threaded embedding of the body of requireOwnership.  The body
evaluates the comparison (pure reads of its two arguments) and either
throws or returns; it contains no assignment, so each branch passes the
argument objects through unchanged. -/
def requireOwnershipSt (requestObject : Request) (resource : Resource) :
    Except JsError Unit × Request × Resource :=
  if !(Id.equals requestObject.user._id resource.owner) then
    (Except.error OwnershipError, requestObject, resource)
  else
    (Except.ok (), requestObject, resource)

/-- State-threaded embedding of the body of handle404: the body tests the
record and either throws or returns it; no assignment occurs. -/
def handle404St (record : JsValue) : Except JsError JsValue × JsValue :=
  if !(truthy record) then
    (Except.error DocumentNotFoundError, record)
  else
    (Except.ok record, record)

/-- State-threaded embedding of the body of validateUser: the body
evaluates the comparison and either throws or returns; no assignment
occurs. -/
def validateUserSt (requestObject : Request) (resource : Resource) :
    Except JsError Unit × Request × Resource :=
  if !(Id.equals requestObject.user._id resource._id) then
    (Except.error UserValidationError, requestObject, resource)
  else
    (Except.ok (), requestObject, resource)

/-
Plain-object manipulation used by the routes and the user schema.  A
JavaScript object is embedded as an association list with unique keys;
property deletion filters the key out, property assignment replaces the
binding in place or appends a fresh one.
-/

/-- JavaScript property assignment obj[k] = v on an object with unique
keys: replace the binding of k in place if present, otherwise append it.
This is also the per-field semantics of a Mongoose update document. -/
def setField : List (String × JsValue) → String → JsValue →
    List (String × JsValue)
  | [], k, v => [(k, v)]
  | kv :: rest, k, v =>
    if kv.1 == k then (k, v) :: rest else kv :: setField rest k v

/-- Modelled from the spec: Mongoose findByIdAndUpdate applies the given
update document to the stored record field by field (the external data
access collaborator).  Each key of the update document is assigned over
the stored fields. -/
def applyUpdate (post : List (String × JsValue))
    (body : List (String × JsValue)) : List (String × JsValue) :=
  body.foldl (fun acc kv => setField acc kv.1 kv.2) post

/-- The first sanitization step of the PATCH /posts/:id handler:
delete req.body.post.owner. -/
def deleteOwnerKey (body : List (String × JsValue)) :
    List (String × JsValue) :=
  body.filter (fun kv => !(kv.1 == "owner"))

/-- The second sanitization step of the PATCH /posts/:id handler: for
each key of the body, if its value is the empty string, delete the
key. -/
def deleteEmptyFields (body : List (String × JsValue)) :
    List (String × JsValue) :=
  body.filter (fun kv => !(kv.2 == JsValue.str ""))

/-- The complete body sanitization performed by the PATCH /posts/:id
handler before it calls findByIdAndUpdate: first the owner key is
deleted, then every key bound to the empty string. -/
def sanitizePatchBody (body : List (String × JsValue)) :
    List (String × JsValue) :=
  deleteEmptyFields (deleteOwnerKey body)

/-- The toObject transform of the user schema (app/models/user.js):
delete user.hashedPassword and return the user object. -/
def userToObjectTransform (user : List (String × JsValue)) :
    List (String × JsValue) :=
  user.filter (fun kv => !(kv.1 == "hashedPassword"))

/-
The mutating routes on a single post (app/routes/post_routes.js).  The
database state visible to one request is the record stored under the
requested id: none when no document has that id.  The PATCH body has
already deleted the owner key before the update document reaches the
store, so the update only touches the plain fields.
-/

/-- A stored post document: its own identifier, its owner identifier,
and its remaining fields. -/
structure PostDoc where
  _id : Id
  owner : Id
  fields : List (String × JsValue)
deriving DecidableEq, Repr

/-- The view of a post document that the guards read: its own id and its
owner. -/
def PostDoc.toResource (p : PostDoc) : Resource :=
  { _id := p._id, owner := p.owner }

/-- handle404 applied to the resolution value of a Mongoose query, which
is the found document or null; a document is truthy and null is falsy,
so the guard throws exactly on the absent case and passes the document
through otherwise. -/
def handle404Doc (record : Option PostDoc) : Except JsError PostDoc :=
  match record with
  | none => Except.error DocumentNotFoundError
  | some p => Except.ok p

/-- Modelled from the spec: Mongoose findByIdAndUpdate with new set to
true (the external data access collaborator) — if a document is stored
under the id, apply the update document to its fields, store the result
and resolve with the updated document; otherwise resolve with null and
leave the store unchanged. -/
def findByIdAndUpdate (db : Option PostDoc)
    (upd : List (String × JsValue)) : Option PostDoc × Option PostDoc :=
  match db with
  | none => (none, none)
  | some p =>
    let p' : PostDoc := { p with fields := applyUpdate p.fields upd }
    (some p', some p')

/-- The PATCH /posts/:id pipeline from app/routes/post_routes.js: delete
the owner key and the empty-string fields from the client body, call
findByIdAndUpdate, then handle404, then requireOwnership, and respond
200 with the updated post; any thrown error is caught and handed
unchanged to the error handler.  Returns the value handed to the
response layer (status 200 on success, the caught error otherwise)
together with the final database state. -/
def patchPipeline (req : Request) (body : List (String × JsValue))
    (db : Option PostDoc) : Except JsError Nat × Option PostDoc :=
  let body' := sanitizePatchBody body
  let found := findByIdAndUpdate db body'
  match handle404Doc found.1 with
  | Except.error e => (Except.error e, found.2)
  | Except.ok post =>
    match requireOwnership req post.toResource with
    | Except.error e => (Except.error e, found.2)
    | Except.ok _ => (Except.ok 200, found.2)

/-- The DELETE /posts/:id pipeline from app/routes/post_routes.js: call
findById (no mutation), then handle404, then requireOwnership, and only
if neither guard threw, remove the post and respond 204; any thrown
error is caught and handed unchanged to the error handler. -/
def deletePipeline (req : Request) (db : Option PostDoc) :
    Except JsError Nat × Option PostDoc :=
  match handle404Doc db with
  | Except.error e => (Except.error e, db)
  | Except.ok post =>
    match requireOwnership req post.toResource with
    | Except.error e => (Except.error e, db)
    | Except.ok _ => (Except.ok 204, none)

/-- Sample identifier u1 in its primary in-memory representation. -/
def idU1 : Id := { value := "u1", repr := 0 }

/-- Sample identifier with the same logical value u1 but a distinct
in-memory representation. -/
def idU1Alt : Id := { value := "u1", repr := 1 }

/-- Sample identifier u2 of a different user. -/
def idU2 : Id := { value := "u2", repr := 0 }

/-- Sample request authenticated as user u1. -/
def reqU1 : Request := { user := { _id := idU1 } }

/-- Sample post resource owned by u1. -/
def resP1OwnedU1 : Resource := { _id := { value := "p1", repr := 0 }, owner := idU1 }

/-- Sample post resource whose owner field is the alternate
representation of u1. -/
def resP1OwnedU1Alt : Resource := { _id := { value := "p1", repr := 0 }, owner := idU1Alt }

/-- Sample post resource owned by u2. -/
def resP1OwnedU2 : Resource := { _id := { value := "p1", repr := 0 }, owner := idU2 }

/-- Sample user record resource for user u1. -/
def resUserU1 : Resource := { _id := idU1, owner := idU1 }

/-- Sample user record resource for user u2. -/
def resUserU2 : Resource := { _id := idU2, owner := idU2 }

/-- Sample client PATCH body: tries to reassign the owner and sends one
empty field. -/
def bodySample : List (String × JsValue) :=
  [("owner", JsValue.str "evil"), ("title", JsValue.str ""),
   ("content", JsValue.str "hi")]

/-- Sample stored post fields, including one empty-string field already
present in the store. -/
def postSample : List (String × JsValue) :=
  [("owner", JsValue.str "u2"), ("note", JsValue.str "")]

/-- Sample stored user document fields. -/
def userSample : List (String × JsValue) :=
  [("email", JsValue.str "a@b.c"), ("hashedPassword", JsValue.str "h4sh"),
   ("nickname", JsValue.str "kingn")]

/-- Sample stored post document owned by u2. -/
def postOwnedU2 : PostDoc :=
  { _id := { value := "p1", repr := 0 }, owner := idU2,
    fields := [("title", JsValue.str "old")] }

/-- Reading a field of a JavaScript object embedded as an association
list with unique keys. -/
def getField : List (String × JsValue) → String → Option JsValue
  | [], _ => none
  | kv :: rest, q => if kv.1 == q then some kv.2 else getField rest q

/-- Claim C1: when the authenticated identifier deep-equals the resource
owner, requireOwnership returns normally; when they differ it fails with
the OwnershipError whose message is exactly the fixed sentence. -/
theorem requireOwnership_spec (req : Request) (res : Resource) :
    (Id.equals req.user._id res.owner = true →
      requireOwnership req res = Except.ok ()) ∧
    (Id.equals req.user._id res.owner = false →
      requireOwnership req res = Except.error OwnershipError ∧
      OwnershipError.message =
        "The provided token does not match the owner of this document") := by
  constructor
  · intro h
    simp [requireOwnership, h]
  · intro h
    exact ⟨by simp [requireOwnership, h], rfl⟩

/-- Witness for C1: the concrete scenarios of the spec, owner u1 versus
owner u2 for a caller authenticated as u1. -/
theorem requireOwnership_spec_witness :
    requireOwnership reqU1 resP1OwnedU1 = Except.ok () ∧
    requireOwnership reqU1 resP1OwnedU2 = Except.error OwnershipError :=
  ⟨(requireOwnership_spec reqU1 resP1OwnedU1).1 (by decide),
   ((requireOwnership_spec reqU1 resP1OwnedU2).2 (by decide)).1⟩

/-- Claim C3: when the authenticated identifier deep-equals the resource
own identifier, validateUser returns normally; otherwise it fails with
the UserValidationError. -/
theorem validateUser_spec (req : Request) (res : Resource) :
    (Id.equals req.user._id res._id = true →
      validateUser req res = Except.ok ()) ∧
    (Id.equals req.user._id res._id = false →
      validateUser req res = Except.error UserValidationError) := by
  constructor
  · intro h
    simp [validateUser, h]
  · intro h
    simp [validateUser, h]

/-- Witness for C3: caller u1 against its own user record and against
the record of u2. -/
theorem validateUser_spec_witness :
    validateUser reqU1 resUserU1 = Except.ok () ∧
    validateUser reqU1 resUserU2 = Except.error UserValidationError :=
  ⟨(validateUser_spec reqU1 resUserU1).1 (by decide),
   (validateUser_spec reqU1 resUserU2).2 (by decide)⟩

/-- Claim C4: handle404 fails with the DocumentNotFoundError on null and
on undefined, and returns any object record identically, the very same
value. -/
theorem handle404_absent_present :
    handle404 JsValue.null = Except.error DocumentNotFoundError ∧
    handle404 JsValue.undefined = Except.error DocumentNotFoundError ∧
    ∀ fields, handle404 (JsValue.obj fields) = Except.ok (JsValue.obj fields) :=
  ⟨rfl, rfl, fun _ => rfl⟩

/-- Claim C5: the comparison in requireOwnership is identifier-level, not
reference equality: two distinct in-memory identifiers with the same
logical value still satisfy the ownership check. -/
theorem requireOwnership_identifier_level (req : Request) (res : Resource)
    (hne : req.user._id ≠ res.owner)
    (hval : req.user._id.value = res.owner.value) :
    requireOwnership req res = Except.ok () := by
  have h : Id.equals req.user._id res.owner = true := by
    simp [Id.equals, hval]
  simp [requireOwnership, h]

/-- Witness for C5: the owner field holds a representation of u1 distinct
from the one in the request, yet ownership passes. -/
theorem requireOwnership_identifier_level_witness :
    requireOwnership reqU1 resP1OwnedU1Alt = Except.ok () :=
  requireOwnership_identifier_level reqU1 resP1OwnedU1Alt (by decide) (by decide)

/-- Claim C6: every error kind carries its fixed name and message pair,
identical on every construction. -/
theorem domainError_fixed_pairs :
    OwnershipError.name = "OwnershipError" ∧
    OwnershipError.message =
      "The provided token does not match the owner of this document" ∧
    UserValidationError.name = "UserValidationError" ∧
    UserValidationError.message =
      "The provided token does not match the current user ID" ∧
    DocumentNotFoundError.name = "DocumentNotFoundError" ∧
    DocumentNotFoundError.message =
      "The provided ID doesn\x27t match any documents" ∧
    BadParamsError.name = "BadParamsError" ∧
    BadParamsError.message = "A required parameter was omitted or invalid" :=
  ⟨rfl, rfl, rfl, rfl, rfl, rfl, rfl, rfl⟩

/-- Claim C7: the three guards are deterministic and side-effect-free:
their state-threaded embeddings return their arguments unchanged and
agree with the pure functions, and equal arguments yield equal
outcomes. -/
theorem guards_pure_deterministic :
    (∀ req res, requireOwnershipSt req res =
      (requireOwnership req res, req, res)) ∧
    (∀ v, handle404St v = (handle404 v, v)) ∧
    (∀ req res, validateUserSt req res = (validateUser req res, req, res)) ∧
    (∀ r1 s1 r2 s2, r1 = r2 → s1 = s2 →
      requireOwnership r1 s1 = requireOwnership r2 s2 ∧
      validateUser r1 s1 = validateUser r2 s2) ∧
    (∀ v1 v2 : JsValue, v1 = v2 → handle404 v1 = handle404 v2) := by
  refine ⟨?_, ?_, ?_, ?_, ?_⟩
  · intro req res
    cases h : Id.equals req.user._id res.owner <;>
      simp [requireOwnershipSt, requireOwnership, h]
  · intro v
    cases h : truthy v <;> simp [handle404St, handle404, h]
  · intro req res
    cases h : Id.equals req.user._id res._id <;>
      simp [validateUserSt, validateUser, h]
  · rintro r1 s1 r2 s2 rfl rfl
    exact ⟨rfl, rfl⟩
  · rintro v1 v2 rfl
    rfl

/-- Witness for C7: concrete invocations of the determinism and purity
statement. -/
theorem guards_pure_deterministic_witness :
    requireOwnershipSt reqU1 resP1OwnedU2 =
      (requireOwnership reqU1 resP1OwnedU2, reqU1, resP1OwnedU2) ∧
    requireOwnership reqU1 resP1OwnedU2 = requireOwnership reqU1 resP1OwnedU2 ∧
    handle404 JsValue.null = handle404 JsValue.null :=
  ⟨guards_pure_deterministic.1 reqU1 resP1OwnedU2,
   (guards_pure_deterministic.2.2.2.1 reqU1 resP1OwnedU2 reqU1 resP1OwnedU2
      rfl rfl).1,
   guards_pure_deterministic.2.2.2.2 JsValue.null JsValue.null rfl⟩

/-- Claim C8: handle404 fails with the DocumentNotFoundError on every
falsy input and returns its argument unchanged exactly when the argument
is truthy. -/
theorem handle404_truthiness (v : JsValue) :
    (truthy v = false → handle404 v = Except.error DocumentNotFoundError) ∧
    (handle404 v = Except.ok v ↔ truthy v = true) := by
  cases h : truthy v <;> simp [handle404, h]

/-- Witness for C8: the falsy values 0, the empty string, false and NaN
all raise, and a truthy string passes through unchanged. -/
theorem handle404_truthiness_witness :
    handle404 (JsValue.number 0) = Except.error DocumentNotFoundError ∧
    handle404 (JsValue.str "") = Except.error DocumentNotFoundError ∧
    handle404 (JsValue.boolean false) = Except.error DocumentNotFoundError ∧
    handle404 JsValue.nan = Except.error DocumentNotFoundError ∧
    handle404 (JsValue.str "x") = Except.ok (JsValue.str "x") :=
  ⟨(handle404_truthiness (JsValue.number 0)).1 (by decide),
   (handle404_truthiness (JsValue.str "")).1 (by decide),
   (handle404_truthiness (JsValue.boolean false)).1 (by decide),
   (handle404_truthiness JsValue.nan).1 (by decide),
   (handle404_truthiness (JsValue.str "x")).2.mpr (by decide)⟩

/-- Unfolding applyUpdate one update key at a time. -/
lemma applyUpdate_cons (post : List (String × JsValue))
    (kv : String × JsValue) (rest : List (String × JsValue)) :
    applyUpdate post (kv :: rest) =
      applyUpdate (setField post kv.1 kv.2) rest := rfl

/-- Reading a field after a single assignment: the assigned key now holds
the assigned value and every other key is untouched. -/
lemma getField_setField (l : List (String × JsValue)) (k q : String)
    (v : JsValue) :
    getField (setField l k v) q = if q = k then some v else getField l q := by
  induction l with
  | nil =>
    by_cases h : q = k
    · simp [setField, getField, h]
    · have hkq : k ≠ q := fun he => h he.symm
      simp [setField, getField, h, hkq]
  | cons kv rest ih =>
    by_cases hk : kv.1 = k
    · by_cases hq : q = k
      · subst hq
        simp [setField, getField, hk]
      · have hkq : k ≠ q := fun he => hq he.symm
        simp [setField, getField, hk, hq, hkq]
    · by_cases hq2 : kv.1 = q
      · have hqk : q ≠ k := fun he => hk (by rw [hq2, he])
        simp [setField, getField, hk, hq2, hqk]
      · simp [setField, getField, hk, hq2, ih]

/-- Applying an update document none of whose keys is k leaves the field
k of the stored record unchanged. -/
lemma getField_applyUpdate_of_not_mem (body post : List (String × JsValue))
    (k : String) (h : ∀ kv ∈ body, kv.1 ≠ k) :
    getField (applyUpdate post body) k = getField post k := by
  induction body generalizing post with
  | nil => rfl
  | cons kv rest ih =>
    rw [applyUpdate_cons, ih _ (fun x hx => h x (List.mem_cons_of_mem _ hx)),
      getField_setField]
    have hne : k ≠ kv.1 := fun he => h kv (List.mem_cons_self _ _) he.symm
    simp [hne]

/-- Applying an update document none of whose values is the empty string
never introduces an empty-string field: an empty string in the result was
already in the stored record. -/
lemma getField_applyUpdate_no_new_empty (body : List (String × JsValue)) :
    ∀ post k, (∀ kv ∈ body, kv.2 ≠ JsValue.str "") →
      getField (applyUpdate post body) k = some (JsValue.str "") →
      getField post k = some (JsValue.str "") := by
  induction body with
  | nil =>
    intro post k _ h
    exact h
  | cons kv rest ih =>
    intro post k hb h
    rw [applyUpdate_cons] at h
    have h2 := ih (setField post kv.1 kv.2) k
      (fun x hx => hb x (List.mem_cons_of_mem _ hx)) h
    rw [getField_setField] at h2
    by_cases hq : k = kv.1
    · rw [if_pos hq] at h2
      exact absurd (Option.some_injective _ h2)
        (hb kv (List.mem_cons_self _ _))
    · rwa [if_neg hq] at h2

/-- Every entry surviving the PATCH body sanitization has a key other
than owner and a value other than the empty string. -/
lemma mem_sanitizePatchBody (body : List (String × JsValue))
    (kv : String × JsValue) (h : kv ∈ sanitizePatchBody body) :
    kv ∈ body ∧ kv.1 ≠ "owner" ∧ kv.2 ≠ JsValue.str "" := by
  unfold sanitizePatchBody deleteEmptyFields deleteOwnerKey at h
  simp only [List.mem_filter, Bool.not_eq_true', beq_eq_false_iff_ne] at h
  exact ⟨h.1.1, h.1.2, h.2⟩

/-- Claim C9: the PATCH /posts/:id handler strips the owner key and every
empty-string field from the client body, so the update never changes the
stored owner field and never writes an empty-string value. -/
theorem patch_sanitization_frame (body post : List (String × JsValue)) :
    (∀ kv ∈ sanitizePatchBody body,
      kv.1 ≠ "owner" ∧ kv.2 ≠ JsValue.str "") ∧
    getField (applyUpdate post (sanitizePatchBody body)) "owner" =
      getField post "owner" ∧
    (∀ k, getField (applyUpdate post (sanitizePatchBody body)) k =
        some (JsValue.str "") →
      getField post k = some (JsValue.str "")) := by
  refine ⟨?_, ?_, ?_⟩
  · intro kv h
    exact (mem_sanitizePatchBody body kv h).2
  · exact getField_applyUpdate_of_not_mem _ _ _
      (fun kv h => (mem_sanitizePatchBody body kv h).2.1)
  · intro k h
    exact getField_applyUpdate_no_new_empty _ _ _
      (fun kv hm => (mem_sanitizePatchBody body kv hm).2.2) h

/-- Witness for C9: a body that tries to reassign the owner and sends one
empty field, applied over a stored post. -/
theorem patch_sanitization_frame_witness :
    (("content", JsValue.str "hi").1 ≠ "owner" ∧
      ("content", JsValue.str "hi").2 ≠ JsValue.str "") ∧
    getField (applyUpdate postSample (sanitizePatchBody bodySample)) "owner" =
      getField postSample "owner" ∧
    getField postSample "note" = some (JsValue.str "") :=
  ⟨(patch_sanitization_frame bodySample postSample).1 _ (by decide),
   (patch_sanitization_frame bodySample postSample).2.1,
   (patch_sanitization_frame bodySample postSample).2.2 "note" (by decide)⟩

/-- Filtering the key k away gives the same object whether or not k was
first assigned some value. -/
lemma filter_ne_setField (l : List (String × JsValue)) (k : String)
    (v : JsValue) :
    (setField l k v).filter (fun kv => !(kv.1 == k)) =
      l.filter (fun kv => !(kv.1 == k)) := by
  induction l with
  | nil => simp [setField]
  | cons kv rest ih =>
    by_cases h : kv.1 = k
    · simp [setField, h]
    · simp [setField, h, ih]

/-- Reading the key that a filter has removed yields nothing. -/
lemma getField_filter_self (l : List (String × JsValue)) (q : String) :
    getField (l.filter (fun kv => !(kv.1 == q))) q = none := by
  induction l with
  | nil => rfl
  | cons kv rest ih =>
    by_cases h : kv.1 = q
    · simp [h, ih]
    · simp [getField, h, ih]

/-- Claim C10: the toObject transform of the user schema removes the
hashedPassword field, keeps every other field intact, and its output does
not depend on the stored password hash. -/
theorem userToObject_hides_hashedPassword (user : List (String × JsValue)) :
    getField (userToObjectTransform user) "hashedPassword" = none ∧
    (∀ kv, kv ∈ userToObjectTransform user ↔
      kv ∈ user ∧ kv.1 ≠ "hashedPassword") ∧
    (∀ h, userToObjectTransform (setField user "hashedPassword" h) =
      userToObjectTransform user) := by
  refine ⟨?_, ?_, ?_⟩
  · exact getField_filter_self user "hashedPassword"
  · intro kv
    simp [userToObjectTransform, List.mem_filter]
  · intro h
    exact filter_ne_setField user "hashedPassword" h

/-- Witness for C10: on a concrete user document the transform hides the
hash, keeps the email field and is unchanged by overwriting the hash. -/
theorem userToObject_hides_hashedPassword_witness :
    getField (userToObjectTransform userSample) "hashedPassword" = none ∧
    ("email", JsValue.str "a@b.c") ∈ userToObjectTransform userSample ∧
    userToObjectTransform (setField userSample "hashedPassword"
        (JsValue.str "zzz")) =
      userToObjectTransform userSample :=
  ⟨(userToObject_hides_hashedPassword userSample).1,
   ((userToObject_hides_hashedPassword userSample).2.1
      ("email", JsValue.str "a@b.c")).mpr (by decide),
   (userToObject_hides_hashedPassword userSample).2.2 (JsValue.str "zzz")⟩

/-- Claim C2 fails on the code: on PATCH /posts/:id the update is
persisted by findByIdAndUpdate before requireOwnership runs, so when the
ownership guard fails the stored post has already been changed, although
the raised OwnershipError is still handed unchanged to the handler; on
DELETE the store is indeed unchanged when the guard fails. -/
theorem patch_update_precedes_ownership_guard :
    patchPipeline reqU1 [("title", JsValue.str "hacked")] (some postOwnedU2) =
      (Except.error OwnershipError,
        some { postOwnedU2 with fields := [("title", JsValue.str "hacked")] }) ∧
    (patchPipeline reqU1 [("title", JsValue.str "hacked")]
        (some postOwnedU2)).2 ≠ some postOwnedU2 ∧
    deletePipeline reqU1 (some postOwnedU2) =
      (Except.error OwnershipError, some postOwnedU2) :=
  ⟨rfl, by decide, rfl⟩

end Facebird
